import Mathlib

/-!
Shallow embedding of the authentication / authorization core of the
scalable-rest-api repository (Express + MySQL task manager).

Sources embedded:
- src/backend/src/models/Task.js            (class Task)
- src/unnamed/part_004                      (class User, models/User.js)
- src/unnamed/part_001                      (utils/jwt.js)
- src/backend/src/controllers/taskController.js
- src/backend/src/controllers/authController.js
- src/backend/src/controllers/userController.js
- src/backend/src/database/migrate.js       (UNIQUE / ENUM / FK constraints)

The MySQL database is modelled as an explicit state value (lists of rows
plus AUTO_INCREMENT counters); each store operation is a pure function on
that state.  JSON responses are modelled as records of status, success
flag, message and payload.  bcrypt and HMAC signing are abstracted to
injective constructions; token expiry and wall-clock time are outside the
model (no claim depends on them).
-/

deriving instance DecidableEq for Except

namespace Api

/-- Role of a request principal or user row, kept as a string exactly as the
JS code compares it (req.user.role === <admin>). -/
abbrev RoleStr := String

/-- JS truthiness of an optional string query parameter: undefined and the
empty string are falsy (the code guards each SQL filter with if (status)). -/
def truthy : Option String → Bool
  | none => false
  | some s => s != ""

/-- JS truthiness of an optional numeric parameter: undefined and 0 are
falsy (the code guards the user id filters with if (userId)). -/
def truthyNat : Option Nat → Bool
  | none => false
  | some n => n != 0

/-- Prefix test on character lists (helper for strContains). -/
def leadsWith : List Char → List Char → Bool
  | [], _ => true
  | _ :: _, [] => false
  | p :: ps, x :: xs => p == x && leadsWith ps xs

/-- Occurrence of pat as a contiguous sublist (helper for strContains). -/
def hasSubList (pat : List Char) : List Char → Bool
  | [] => pat.isEmpty
  | x :: xs => leadsWith pat (x :: xs) || hasSubList pat xs

/-- Substring test, modelling the JS String.prototype.includes used by the
task controllers on error messages. -/
def strContains (s pat : String) : Bool :=
  hasSubList pat.data s.data

/-- users table row (migrate.js): id, username, email, password hash, role. -/
structure User where
  id : Nat
  username : String
  email : String
  password : String
  role : RoleStr
  deriving DecidableEq, Repr

/-- tasks table row (migrate.js): the owning user id is the user_id column. -/
structure Task where
  id : Nat
  title : String
  description : Option String
  status : String
  priority : String
  due_date : Option String
  user_id : Nat
  created_at : Nat
  deriving DecidableEq, Repr

/-- Database state: the two tables plus their AUTO_INCREMENT counters. -/
structure DB where
  users : List User
  tasks : List Task
  nextUserId : Nat
  nextTaskId : Nat
  deriving DecidableEq, Repr

/-- Authenticated principal attached to the request by the auth middleware
(req.user has an id and a role, decoded from the access token). -/
structure Principal where
  id : Nat
  role : RoleStr
  deriving DecidableEq, Repr

/-- JWT claims: subject id plus an optional role field.  Access tokens are
signed over an id-and-role payload, refresh tokens over an id-only payload,
so the role component is an Option. -/
structure Claims where
  id : Nat
  role : Option RoleStr
  deriving DecidableEq, Repr

/-- A signed JWT, abstracted to its payload and the secret it was signed
with; signature verification is modelled as comparing that secret.  Expiry
is outside the model. -/
structure SignedToken where
  payload : Claims
  secret : String
  deriving DecidableEq, Repr

/-- The pair of environment secrets, JWT_SECRET and JWT_REFRESH_SECRET. -/
structure Env where
  jwtSecret : String
  jwtRefreshSecret : String
  deriving DecidableEq, Repr

/-- Abstraction of jwt.sign(payload, secret). -/
def jwtSign (payload : Claims) (secret : String) : SignedToken :=
  ⟨payload, secret⟩

/-- Abstraction of jwt.verify(token, secret): succeeds exactly when the
token was signed with the same secret. -/
def jwtVerify (t : SignedToken) (secret : String) : Option Claims :=
  if t.secret = secret then some t.payload else none

/-- utils/jwt.js generateAccessToken: sign with JWT_SECRET. -/
def generateAccessToken (env : Env) (payload : Claims) : SignedToken :=
  jwtSign payload env.jwtSecret

/-- utils/jwt.js generateRefreshToken: sign with JWT_REFRESH_SECRET. -/
def generateRefreshToken (env : Env) (payload : Claims) : SignedToken :=
  jwtSign payload env.jwtRefreshSecret

/-- utils/jwt.js verifyAccessToken: jwt.verify against JWT_SECRET, any
failure collapsed to one error message. -/
def verifyAccessToken (env : Env) (t : SignedToken) : Except String Claims :=
  match jwtVerify t env.jwtSecret with
  | some c => .ok c
  | none => .error "Invalid or expired token"

/-- utils/jwt.js verifyRefreshToken: jwt.verify against JWT_REFRESH_SECRET,
any failure collapsed to one error message. -/
def verifyRefreshToken (env : Env) (t : SignedToken) : Except String Claims :=
  match jwtVerify t env.jwtRefreshSecret with
  | some c => .ok c
  | none => .error "Invalid or expired refresh token"

/-- Abstraction of bcrypt.hash: an injective tagging of the plaintext. -/
def bcryptHash (password : String) : String :=
  "bcrypt:" ++ password

/-- models/User.js verifyPassword via bcrypt.compare: true exactly when the
stored hash is the hash of the plaintext. -/
def User.verifyPassword (plainPassword hashedPassword : String) : Bool :=
  hashedPassword == bcryptHash plainPassword

/-- Errors raised by the MySQL layer for constraint violations (migrate.js
declares UNIQUE on users.username and users.email and an ENUM role
column). -/
inductive StoreErr where
  | duplicateEntry
  | invalidEnumValue
  deriving DecidableEq, Repr

/-- The public user shape returned by User.create and the auth endpoints:
id, username, email, role and no password hash. -/
structure PublicUser where
  id : Nat
  username : String
  email : String
  role : RoleStr
  deriving DecidableEq, Repr

/-- models/User.js create: hash the password, INSERT the row (subject to
the UNIQUE and ENUM constraints of migrate.js), return the public shape
with the fresh insertId.  The role parameter defaults to user when the
caller supplies none. -/
def User.create (username email password : String) (role : Option RoleStr)
    (db : DB) : Except StoreErr (PublicUser × DB) :=
  let roleVal := role.getD "user"
  if db.users.any (fun u => u.username == username || u.email == email) then
    .error .duplicateEntry
  else if roleVal != "user" && roleVal != "admin" then
    .error .invalidEnumValue
  else
    let row : User := ⟨db.nextUserId, username, email, bcryptHash password, roleVal⟩
    let db2 : DB := { db with users := db.users ++ [row], nextUserId := db.nextUserId + 1 }
    .ok (⟨row.id, username, email, roleVal⟩, db2)

/-- models/User.js findById (SELECT ... WHERE id = ?, first row or null).
Column selection is not modelled; the row is returned whole. -/
def User.findById (id : Nat) (db : DB) : Option User :=
  db.users.find? (fun u => u.id == id)

/-- models/User.js findByEmail (SELECT * WHERE email = ?, includes the
password hash for login verification). -/
def User.findByEmail (email : String) (db : DB) : Option User :=
  db.users.find? (fun u => u.email == email)

/-- The explicit allow-list of mutable user fields in models/User.js
update. -/
def allowedUserFields : List String :=
  ["username", "email", "role"]

/-- SET of one allow-listed column in the users UPDATE statement. -/
def applyUserField (u : User) (kv : String × String) : User :=
  match kv.1 with
  | "username" => { u with username := kv.2 }
  | "email" => { u with email := kv.2 }
  | "role" => { u with role := kv.2 }
  | _ => u

/-- Sequential application of the SET clause fields. -/
def applyUserFields (u : User) (fields : List (String × String)) : User :=
  fields.foldl applyUserField u

/-- models/User.js update: filter the supplied fields against the
allow-list, fail when nothing remains, otherwise UPDATE the row with the
matching id and re-read it.  The updates argument is the list of fields
present in the caller object with their values. -/
def User.update (id : Nat) (updates : List (String × String)) (db : DB) :
    Except String (Option User × DB) :=
  let fields := updates.filter (fun kv => allowedUserFields.contains kv.1)
  if fields.isEmpty then
    .error "No valid fields to update"
  else
    let db2 : DB :=
      { db with users := db.users.map (fun u => if u.id == id then applyUserFields u fields else u) }
    .ok (User.findById id db2, db2)

/-- models/User.js delete: DELETE WHERE id = ?; success is affectedRows
greater than zero.  Because of the ON DELETE CASCADE foreign key in
migrate.js, deleting a user also deletes every task whose user_id is that
user. -/
def User.delete (id : Nat) (db : DB) : Bool × DB :=
  let existed := db.users.any (fun u => u.id == id)
  (existed,
    { db with
        users := db.users.filter (fun u => u.id != id),
        tasks := db.tasks.filter (fun t => t.user_id != id) })

/-- Query options for the task list operations, mirroring the option
objects built by the task controller (limit, offset, optional status and
priority filters, optional user_id filter for findAll). -/
structure TaskQuery where
  limit : Nat := 10
  offset : Nat := 0
  status : Option String := none
  priority : Option String := none
  user_id : Option Nat := none
  deriving DecidableEq, Repr

/-- Insertion step of the ORDER BY created_at DESC sort. -/
def insertDesc (a : Task) : List Task → List Task
  | [] => [a]
  | b :: rest => if b.created_at ≤ a.created_at then a :: b :: rest else b :: insertDesc a rest

/-- ORDER BY created_at DESC, as an insertion sort (the SQL ordering among
rows with equal created_at is unspecified). -/
def sortByCreatedDesc : List Task → List Task
  | [] => []
  | a :: rest => insertDesc a (sortByCreatedDesc rest)

/-- models/Task.js findById (SELECT ... WHERE t.id = ?, first row or
null).  The LEFT JOIN of the owner username and email is not modelled. -/
def Task.findById (id : Nat) (db : DB) : Option Task :=
  db.tasks.find? (fun t => t.id == id)

/-- models/Task.js findByUserId: SELECT WHERE user_id = ? plus the truthy
status and priority filters, ORDER BY created_at DESC, then OFFSET and
LIMIT. -/
def Task.findByUserId (userId : Nat) (q : TaskQuery) (db : DB) : List Task :=
  let rows := db.tasks.filter (fun t =>
    t.user_id == userId
      && (if truthy q.status then t.status == q.status.getD "" else true)
      && (if truthy q.priority then t.priority == q.priority.getD "" else true))
  (((sortByCreatedDesc rows).drop q.offset).take q.limit)

/-- models/Task.js findAll: SELECT WHERE 1=1 plus the truthy status,
priority and user_id filters, ORDER BY created_at DESC, then OFFSET and
LIMIT. -/
def Task.findAll (q : TaskQuery) (db : DB) : List Task :=
  let rows := db.tasks.filter (fun t =>
    (if truthy q.status then t.status == q.status.getD "" else true)
      && (if truthy q.priority then t.priority == q.priority.getD "" else true)
      && (if truthyNat q.user_id then t.user_id == q.user_id.getD 0 else true))
  (((sortByCreatedDesc rows).drop q.offset).take q.limit)

/-- models/Task.js count: COUNT with the truthy user id, status and
priority filters. -/
def Task.count (userId : Option Nat) (status priority : Option String) (db : DB) : Nat :=
  (db.tasks.filter (fun t =>
    (if truthyNat userId then t.user_id == userId.getD 0 else true)
      && (if truthy status then t.status == status.getD "" else true)
      && (if truthy priority then t.priority == priority.getD "" else true))).length

/-- The explicit allow-list of mutable task fields in models/Task.js
update. -/
def allowedTaskFields : List String :=
  ["title", "description", "status", "priority", "due_date"]

/-- Membership of a supplied field in the task allow-list (the JS
allowedFields.includes filter of models/Task.js update). -/
def isAllowedTaskField (kv : String × String) : Bool :=
  allowedTaskFields.contains kv.1

/-- SET of one allow-listed column in the tasks UPDATE statement. -/
def applyTaskField (t : Task) (kv : String × String) : Task :=
  match kv.1 with
  | "title" => { t with title := kv.2 }
  | "description" => { t with description := some kv.2 }
  | "status" => { t with status := kv.2 }
  | "priority" => { t with priority := kv.2 }
  | "due_date" => { t with due_date := some kv.2 }
  | _ => t

/-- Sequential application of the SET clause fields. -/
def applyTaskFields (t : Task) (fields : List (String × String)) : Task :=
  fields.foldl applyTaskField t

/-- models/Task.js update: unless the caller is an admin, first load the
task and throw the merged error when it is absent or owned by someone
else; then filter the supplied fields against the allow-list, fail when
nothing remains, UPDATE the row with the matching id and re-read it. -/
def Task.update (id userId : Nat) (updates : List (String × String))
    (isAdmin : Bool) (db : DB) : Except String (Option Task × DB) :=
  let go : Except String (Option Task × DB) :=
    let fields := updates.filter isAllowedTaskField
    if fields.isEmpty then
      .error "No valid fields to update"
    else
      let db2 : DB :=
        { db with tasks := db.tasks.map (fun t => if t.id == id then applyTaskFields t fields else t) }
      .ok (Task.findById id db2, db2)
  if isAdmin then go
  else
    match Task.findById id db with
    | none => .error "Task not found or unauthorized"
    | some t => if t.user_id == userId then go else .error "Task not found or unauthorized"

/-- models/Task.js delete: the same ownership guard as update, then DELETE
WHERE id = ?; success is affectedRows greater than zero. -/
def Task.delete (id userId : Nat) (isAdmin : Bool) (db : DB) :
    Except String (Bool × DB) :=
  let go : Except String (Bool × DB) :=
    let existed := db.tasks.any (fun t => t.id == id)
    (.ok (existed, { db with tasks := db.tasks.filter (fun t => t.id != id) }))
  if isAdmin then go
  else
    match Task.findById id db with
    | none => .error "Task not found or unauthorized"
    | some t => if t.user_id == userId then go else .error "Task not found or unauthorized"

/-- JSON response of the single-task endpoints: HTTP status, success flag,
optional message, and an optional data payload whose task field may itself
be null (res.json with data colon-task). -/
structure TaskResponse where
  status : Nat
  success : Bool
  message : Option String
  task : Option (Option Task)
  deriving DecidableEq, Repr

/-- JSON response of the task list endpoint: the rows plus the pagination
block. -/
structure TaskListResponse where
  status : Nat
  success : Bool
  tasks : List Task
  total : Nat
  limit : Nat
  offset : Nat
  hasMore : Bool
  deriving DecidableEq, Repr

/-- JSON response of the user endpoints that carry no record payload. -/
structure ApiResponse where
  status : Nat
  success : Bool
  message : Option String
  deriving DecidableEq, Repr

/-- JSON response of the auth endpoints: optional public user and the two
optional tokens. -/
structure AuthResponse where
  status : Nat
  success : Bool
  message : Option String
  user : Option PublicUser
  accessToken : Option SignedToken
  refreshToken : Option SignedToken
  deriving DecidableEq, Repr

/-- Modelled from the spec: middleware/errorHandler.js is not under src
(only app.js wires it).  Per the error taxonomy of the spec, an
InternalStoreFailure reaching the handler maps to HTTP 500 and is never
detailed to the client. -/
def errorHandlerTask (_msg : String) : TaskResponse :=
  ⟨500, false, some "Server Error", none⟩

/-- Modelled from the spec: middleware/errorHandler.js is not under src.
Per the error taxonomy of the spec, a DuplicateIdentity failure from the
Credential Store maps to HTTP 400, and any other store failure to an
InternalStoreFailure HTTP 500. -/
def errorHandlerStore (e : StoreErr) : AuthResponse :=
  match e with
  | .duplicateEntry => ⟨400, false, some "Duplicate entry", none, none, none⟩
  | .invalidEnumValue => ⟨500, false, some "Server Error", none, none, none⟩

/-- Modelled from the spec: middleware/errorHandler.js is not under src.
Per the spec, POST /auth/refresh answers 200 or 401, so the
InvalidOrExpiredToken error thrown by verifyRefreshToken maps to HTTP
401. -/
def errorHandlerAuth (msg : String) : AuthResponse :=
  ⟨401, false, some msg, none, none, none⟩

/-- taskController.js getTask: load the task; 404 when absent; 403 when
the caller neither owns it nor is an admin; 200 with the task otherwise. -/
def getTask (p : Principal) (id : Nat) (db : DB) : TaskResponse :=
  match Task.findById id db with
  | none => ⟨404, false, some "Task not found", none⟩
  | some task =>
    if task.user_id ≠ p.id ∧ p.role ≠ "admin" then
      ⟨403, false, some "Not authorized to access this task", none⟩
    else
      ⟨200, true, none, some (some task)⟩

/-- taskController.js getTasks: an admin queries Task.findAll with no
user_id filter, everyone else queries Task.findByUserId on their own id;
the count is scoped the same way. -/
def getTasks (p : Principal) (q : TaskQuery) (db : DB) : TaskListResponse :=
  let isAdmin := p.role == "admin"
  if isAdmin then
    let tasks := Task.findAll ⟨q.limit, q.offset, q.status, q.priority, none⟩ db
    let total := Task.count none q.status q.priority db
    ⟨200, true, tasks, total, q.limit, q.offset, decide (q.offset + q.limit < total)⟩
  else
    let tasks := Task.findByUserId p.id ⟨q.limit, q.offset, q.status, q.priority, none⟩ db
    let total := Task.count (some p.id) q.status q.priority db
    ⟨200, true, tasks, total, q.limit, q.offset, decide (q.offset + q.limit < total)⟩

/-- taskController.js updateTask: delegate to Task.update with the admin
flag; a thrown message containing not found or unauthorized becomes a 404
with that message, anything else goes to the error handler. -/
def updateTask (p : Principal) (id : Nat) (updates : List (String × String))
    (db : DB) : TaskResponse × DB :=
  let isAdmin := p.role == "admin"
  match Task.update id p.id updates isAdmin db with
  | .ok (task, db2) => (⟨200, true, some "Task updated successfully", some task⟩, db2)
  | .error msg =>
    if strContains msg "not found" || strContains msg "unauthorized" then
      (⟨404, false, some msg, none⟩, db)
    else
      (errorHandlerTask msg, db)

/-- taskController.js deleteTask: delegate to Task.delete with the admin
flag; a false result becomes 404 Task not found; a thrown message
containing not found or unauthorized becomes a 404 with that message. -/
def deleteTask (p : Principal) (id : Nat) (db : DB) : TaskResponse × DB :=
  let isAdmin := p.role == "admin"
  match Task.delete id p.id isAdmin db with
  | .ok (deleted, db2) =>
    if deleted = false then
      (⟨404, false, some "Task not found", none⟩, db2)
    else
      (⟨200, true, some "Task deleted successfully", none⟩, db2)
  | .error msg =>
    if strContains msg "not found" || strContains msg "unauthorized" then
      (⟨404, false, some msg, none⟩, db)
    else
      (errorHandlerTask msg, db)

/-- userController.js deleteUser (admin route): reject when the target id
is the caller itself, otherwise User.delete; false means 404. -/
def deleteUser (p : Principal) (id : Nat) (db : DB) : ApiResponse × DB :=
  if id = p.id then
    (⟨400, false, some "You cannot delete your own account"⟩, db)
  else
    let r := User.delete id db
    if r.1 = false then
      (⟨404, false, some "User not found"⟩, r.2)
    else
      (⟨200, true, some "User deleted successfully"⟩, r.2)

/-- authController.js register: 400 when the email is already taken, else
User.create, then an access token over the id-and-role payload and a
refresh token over the id-only payload.  A store error propagates to the
error handler. -/
def register (env : Env) (username email password : String)
    (role : Option RoleStr) (db : DB) : AuthResponse × DB :=
  match User.findByEmail email db with
  | some _ => (⟨400, false, some "User with this email already exists", none, none, none⟩, db)
  | none =>
    match User.create username email password role db with
    | .error e => (errorHandlerStore e, db)
    | .ok (user, db2) =>
      (⟨201, true, some "User registered successfully", some user,
        some (generateAccessToken env ⟨user.id, some user.role⟩),
        some (generateRefreshToken env ⟨user.id, none⟩)⟩, db2)

/-- authController.js login: look the user up by email, verify the
password, then issue the same token pair as register; both failure cases
answer 401 Invalid credentials. -/
def login (env : Env) (email password : String) (db : DB) : AuthResponse :=
  match User.findByEmail email db with
  | none => ⟨401, false, some "Invalid credentials", none, none, none⟩
  | some user =>
    if User.verifyPassword password user.password = false then
      ⟨401, false, some "Invalid credentials", none, none, none⟩
    else
      ⟨200, true, some "Login successful",
        some ⟨user.id, user.username, user.email, user.role⟩,
        some (generateAccessToken env ⟨user.id, some user.role⟩),
        some (generateRefreshToken env ⟨user.id, none⟩)⟩

/-- authController.js refreshToken: 400 without a token, verify against
the refresh secret, re-read the user from the store, and issue a new
access token carrying the role currently stored for that user. -/
def refreshToken (env : Env) (rt : Option SignedToken) (db : DB) : AuthResponse :=
  match rt with
  | none => ⟨400, false, some "Refresh token is required", none, none, none⟩
  | some t =>
    match verifyRefreshToken env t with
    | .error msg => errorHandlerAuth msg
    | .ok decoded =>
      match User.findById decoded.id db with
      | none => ⟨401, false, some "User not found", none, none, none⟩
      | some user =>
        ⟨200, true, some "Token refreshed successfully", none,
          some (generateAccessToken env ⟨user.id, some user.role⟩), none⟩

/-- A small concrete database used by the closed witness theorems: two
plain users, one admin, and one task owned by user 1. -/
def sampleDB : DB :=
  ⟨[⟨1, "alice", "a@x", bcryptHash "pw", "user"⟩,
    ⟨2, "bob", "b@x", bcryptHash "pw", "user"⟩,
    ⟨3, "root", "r@x", bcryptHash "pw", "admin"⟩],
   [⟨1, "T1", none, "pending", "medium", none, 1, 0⟩], 4, 2⟩

/-! Helper lemmas shared by the claim theorems. -/

/-- A membership characterisation of the insertion step. -/
theorem mem_insertDesc {x a : Task} {l : List Task} :
    x ∈ insertDesc a l ↔ x = a ∨ x ∈ l := by
  induction l with
  | nil => simp [insertDesc]
  | cons b rest ih =>
    simp only [insertDesc]
    split
    · simp
    · simp [ih]
      tauto

/-- Sorting by created_at preserves membership. -/
theorem mem_sortByCreatedDesc {x : Task} {l : List Task} :
    x ∈ sortByCreatedDesc l ↔ x ∈ l := by
  induction l with
  | nil => simp [sortByCreatedDesc]
  | cons a rest ih =>
    simp [sortByCreatedDesc, mem_insertDesc, ih]

/-- A successful find by id makes the corresponding any check true. -/
theorem tasks_any_of_findById {tid : Nat} {t : Task} {db : DB}
    (h : Task.findById tid db = some t) :
    db.tasks.any (fun x => x.id == tid) = true := by
  unfold Task.findById at h
  have hm := List.mem_of_find?_eq_some h
  have hp := List.find?_some h
  exact List.any_eq_true.mpr ⟨t, hm, hp⟩

/-- An email absent from every row makes findByEmail return none. -/
theorem findByEmail_eq_none {em : String} {db : DB}
    (h : ∀ u ∈ db.users, u.email ≠ em) :
    User.findByEmail em db = none := by
  refine List.find?_eq_none.mpr ?_
  intro u hu
  simpa using h u hu

/-- Conversely, findByEmail returning none means no row has the email. -/
theorem no_email_of_findByEmail_eq_none {em : String} {db : DB}
    (h : User.findByEmail em db = none) :
    ∀ u ∈ db.users, u.email ≠ em := by
  intro u hu
  have := List.find?_eq_none.mp h u hu
  simpa using this

/-- A fresh username and email make the create duplicate check false. -/
theorem usersAny_eq_false {un em : String} {db : DB}
    (h : ∀ u ∈ db.users, u.username ≠ un ∧ u.email ≠ em) :
    db.users.any (fun u => u.username == un || u.email == em) = false := by
  refine List.any_eq_false.mpr ?_
  intro u hu
  simpa using h u hu

/-- The single SET step never touches the id column. -/
theorem applyUserField_id (u : User) (kv : String × String) :
    (applyUserField u kv).id = u.id := by
  unfold applyUserField
  split <;> rfl

/-- The single SET step never touches the password column. -/
theorem applyUserField_password (u : User) (kv : String × String) :
    (applyUserField u kv).password = u.password := by
  unfold applyUserField
  split <;> rfl

/-- The whole SET clause never touches the id column. -/
theorem applyUserFields_id (fields : List (String × String)) (u : User) :
    (applyUserFields u fields).id = u.id := by
  induction fields generalizing u with
  | nil => rfl
  | cons kv rest ih =>
    simp only [applyUserFields, List.foldl_cons] at *
    rw [ih, applyUserField_id]

/-- The whole SET clause never touches the password column. -/
theorem applyUserFields_password (fields : List (String × String)) (u : User) :
    (applyUserFields u fields).password = u.password := by
  induction fields generalizing u with
  | nil => rfl
  | cons kv rest ih =>
    simp only [applyUserFields, List.foldl_cons] at *
    rw [ih, applyUserField_password]

/-! Claim theorems. -/

/-- C7: assuming the access secret and the refresh secret are distinct,
a token issued by generateRefreshToken is rejected by verifyAccessToken
with the InvalidOrExpiredToken message, and a token issued by
generateAccessToken is rejected by verifyRefreshToken with its
InvalidOrExpiredToken message (cross-secret rejection both ways). -/
theorem c7_cross_secret_rejection (env : Env) (p q : Claims)
    (h : env.jwtSecret ≠ env.jwtRefreshSecret) :
    verifyAccessToken env (generateRefreshToken env p) = .error "Invalid or expired token" ∧
    verifyRefreshToken env (generateAccessToken env q) = .error "Invalid or expired refresh token" := by
  have h2 : env.jwtRefreshSecret ≠ env.jwtSecret := fun hh => h hh.symm
  constructor
  · simp [verifyAccessToken, generateRefreshToken, jwtSign, jwtVerify, h2]
  · simp [verifyRefreshToken, generateAccessToken, jwtSign, jwtVerify, h]

/-- Witness for C7 at a concrete environment with distinct secrets. -/
theorem c7_witness :
    ("s1" : String) ≠ "s2" ∧
    (verifyAccessToken ⟨"s1", "s2"⟩ (generateRefreshToken ⟨"s1", "s2"⟩ ⟨1, none⟩) = .error "Invalid or expired token" ∧
     verifyRefreshToken ⟨"s1", "s2"⟩ (generateAccessToken ⟨"s1", "s2"⟩ ⟨2, some "user"⟩) = .error "Invalid or expired refresh token") :=
  ⟨by decide, c7_cross_secret_rejection ⟨"s1", "s2"⟩ ⟨1, none⟩ ⟨2, some "user"⟩ (by decide)⟩

/-- C6: the refresh operation never uses a role claim carried in the
refresh token.  Refresh tokens issued by register and by login carry an
id-only payload (role component none), and a refresh request with any
refresh-secret-signed token answers with a new access token whose role is
the one currently stored for that subject, regardless of any role field in
the presented payload. -/
theorem c6_refresh_rederives_role (env : Env) (un em em2 pw pw2 : String)
    (role : Option RoleStr) (db : DB) (rt rt2 t : SignedToken) (u : User)
    (hreg : (register env un em pw role db).1.refreshToken = some rt)
    (hlog : (login env em2 pw2 db).refreshToken = some rt2)
    (hsec : t.secret = env.jwtRefreshSecret)
    (huser : User.findById t.payload.id db = some u) :
    rt.payload.role = none ∧ rt2.payload.role = none ∧
    refreshToken env (some t) db =
      ⟨200, true, some "Token refreshed successfully", none,
        some ⟨⟨u.id, some u.role⟩, env.jwtSecret⟩, none⟩ := by
  refine ⟨?_, ?_, ?_⟩
  · unfold register at hreg
    split at hreg
    · simp at hreg
    · split at hreg
      · rename_i e _
        cases e <;> simp [errorHandlerStore] at hreg
      · simp [generateRefreshToken, jwtSign] at hreg
        rw [← hreg]
  · unfold login at hlog
    split at hlog
    · simp at hlog
    · split at hlog
      · simp at hlog
      · simp [generateRefreshToken, jwtSign] at hlog
        rw [← hlog]
  · simp [refreshToken, verifyRefreshToken, jwtVerify, hsec, huser,
      generateAccessToken, jwtSign]

/-- Witness for C6: registering and logging in against the sample database
yield role-free refresh tokens, and refreshing with a token whose payload
smuggles role admin still issues an access token with the stored role
user. -/
theorem c6_witness :
    (register ⟨"s1", "s2"⟩ "carol" "c@x" "pw" none sampleDB).1.refreshToken = some ⟨⟨4, none⟩, "s2"⟩ ∧
    (login ⟨"s1", "s2"⟩ "a@x" "pw" sampleDB).refreshToken = some ⟨⟨1, none⟩, "s2"⟩ ∧
    (⟨⟨1, some "admin"⟩, "s2"⟩ : SignedToken).secret = ("s2" : String) ∧
    User.findById 1 sampleDB = some ⟨1, "alice", "a@x", bcryptHash "pw", "user"⟩ ∧
    ((⟨⟨4, none⟩, "s2"⟩ : SignedToken).payload.role = none ∧
     (⟨⟨1, none⟩, "s2"⟩ : SignedToken).payload.role = none ∧
     refreshToken ⟨"s1", "s2"⟩ (some ⟨⟨1, some "admin"⟩, "s2"⟩) sampleDB =
       ⟨200, true, some "Token refreshed successfully", none, some ⟨⟨1, some "user"⟩, "s1"⟩, none⟩) :=
  ⟨by decide, by decide, by decide, by decide,
   c6_refresh_rederives_role ⟨"s1", "s2"⟩ "carol" "c@x" "a@x" "pw" "pw" none sampleDB
     ⟨⟨4, none⟩, "s2"⟩ ⟨⟨1, none⟩, "s2"⟩ ⟨⟨1, some "admin"⟩, "s2"⟩
     ⟨1, "alice", "a@x", bcryptHash "pw", "user"⟩
     (by decide) (by decide) (by decide) (by decide)⟩

/-- C2: register forwards the caller-supplied role to User.create with no
authorization check: an unauthenticated register request carrying role
admin and fresh identifiers creates a user record whose role is admin and
answers 201 with an access token embedding role admin. -/
theorem c2_register_forwards_admin_role (env : Env) (un em pw : String) (db : DB)
    (h : ∀ u ∈ db.users, u.username ≠ un ∧ u.email ≠ em) :
    register env un em pw (some "admin") db =
      (⟨201, true, some "User registered successfully",
        some ⟨db.nextUserId, un, em, "admin"⟩,
        some ⟨⟨db.nextUserId, some "admin"⟩, env.jwtSecret⟩,
        some ⟨⟨db.nextUserId, none⟩, env.jwtRefreshSecret⟩⟩,
       { db with users := db.users ++ [⟨db.nextUserId, un, em, bcryptHash pw, "admin"⟩],
                 nextUserId := db.nextUserId + 1 }) := by
  have hfe : User.findByEmail em db = none := findByEmail_eq_none (fun u hu => (h u hu).2)
  have hany := usersAny_eq_false h
  have henum : ((("admin" : String) != "user") && (("admin" : String) != "admin")) = false := by decide
  simp [register, hfe, User.create, hany, henum, generateAccessToken,
    generateRefreshToken, jwtSign]

/-- Witness for C2 on the sample database. -/
theorem c2_witness :
    (∀ u ∈ sampleDB.users, u.username ≠ "mallory" ∧ u.email ≠ "m@x") ∧
    register ⟨"s1", "s2"⟩ "mallory" "m@x" "pw" (some "admin") sampleDB =
      (⟨201, true, some "User registered successfully",
        some ⟨4, "mallory", "m@x", "admin"⟩,
        some ⟨⟨4, some "admin"⟩, "s1"⟩,
        some ⟨⟨4, none⟩, "s2"⟩⟩,
       ⟨[⟨1, "alice", "a@x", bcryptHash "pw", "user"⟩,
         ⟨2, "bob", "b@x", bcryptHash "pw", "user"⟩,
         ⟨3, "root", "r@x", bcryptHash "pw", "admin"⟩,
         ⟨4, "mallory", "m@x", bcryptHash "pw", "admin"⟩],
        [⟨1, "T1", none, "pending", "medium", none, 1, 0⟩], 5, 2⟩) :=
  ⟨by decide, c2_register_forwards_admin_role ⟨"s1", "s2"⟩ "mallory" "m@x" "pw" sampleDB (by decide)⟩

/-- C3: a registration whose username or email is already taken answers
HTTP 400 and leaves the user table unchanged, and a 201 answer implies
both identifiers were unused. -/
theorem c3_duplicate_identity (env : Env) (un em pw : String)
    (role : Option RoleStr) (db : DB) :
    ((∃ u ∈ db.users, u.username = un ∨ u.email = em) →
      (register env un em pw role db).1.status = 400 ∧
      (register env un em pw role db).2 = db) ∧
    ((register env un em pw role db).1.status = 201 →
      ∀ u ∈ db.users, u.username ≠ un ∧ u.email ≠ em) := by
  cases hfe : User.findByEmail em db with
  | some u0 =>
    constructor
    · intro _
      simp [register, hfe]
    · intro h201
      exfalso
      simp [register, hfe] at h201
  | none =>
    cases hany : db.users.any (fun u => u.username == un || u.email == em) with
    | true =>
      constructor
      · intro _
        simp [register, hfe, User.create, hany, errorHandlerStore]
      · intro h201
        exfalso
        simp [register, hfe, User.create, hany, errorHandlerStore] at h201
    | false =>
      have hforall : ∀ u ∈ db.users, u.username ≠ un ∧ u.email ≠ em := by
        intro u hu
        have := List.any_eq_false.mp hany u hu
        simpa using this
      constructor
      · rintro ⟨u, hu, hor⟩
        exfalso
        rcases hor with h1 | h2
        · exact (hforall u hu).1 h1
        · exact (hforall u hu).2 h2
      · intro _
        exact hforall

/-- Witness for C3: registering a taken username with a fresh email on the
sample database answers 400 and changes nothing. -/
theorem c3_witness :
    (∃ u ∈ sampleDB.users, u.username = "alice" ∨ u.email = "fresh@x") ∧
    ((register ⟨"s1", "s2"⟩ "alice" "fresh@x" "pw" none sampleDB).1.status = 400 ∧
     (register ⟨"s1", "s2"⟩ "alice" "fresh@x" "pw" none sampleDB).2 = sampleDB) :=
  ⟨⟨⟨1, "alice", "a@x", bcryptHash "pw", "user"⟩, by decide, Or.inl rfl⟩,
   (c3_duplicate_identity ⟨"s1", "s2"⟩ "alice" "fresh@x" "pw" none sampleDB).1
     ⟨⟨1, "alice", "a@x", bcryptHash "pw", "user"⟩, by decide, Or.inl rfl⟩⟩

/-- C8: an admin deleting their own user id is rejected with 400 and the
state is untouched; deleting a different existing user answers 200,
removes exactly that user row, and cascades deletion of every task owned
by that user. -/
theorem c8_admin_delete_user (p : Principal) (tid : Nat) (db : DB)
    (_hadmin : p.role = "admin") :
    (tid = p.id →
      deleteUser p tid db = (⟨400, false, some "You cannot delete your own account"⟩, db)) ∧
    (tid ≠ p.id → (∃ u ∈ db.users, u.id = tid) →
      (deleteUser p tid db).1 = ⟨200, true, some "User deleted successfully"⟩ ∧
      (deleteUser p tid db).2.users = db.users.filter (fun u => u.id != tid) ∧
      (deleteUser p tid db).2.tasks = db.tasks.filter (fun t => t.user_id != tid)) := by
  constructor
  · intro h
    simp [deleteUser, h]
  · intro hne hex
    have hany : db.users.any (fun u => u.id == tid) = true := by
      rcases hex with ⟨u, hu, hid⟩
      exact List.any_eq_true.mpr ⟨u, hu, by simpa using hid⟩
    simp [deleteUser, hne, User.delete, hany]

/-- Witness for C8 on the sample database: the admin cannot delete itself,
and deleting user 1 removes the row and its task. -/
theorem c8_witness :
    ((⟨3, "admin"⟩ : Principal).role = "admin" ∧ (1 : Nat) ≠ 3 ∧
     (∃ u ∈ sampleDB.users, u.id = 1)) ∧
    ((deleteUser ⟨3, "admin"⟩ 1 sampleDB).1 = ⟨200, true, some "User deleted successfully"⟩ ∧
     (deleteUser ⟨3, "admin"⟩ 1 sampleDB).2.users = sampleDB.users.filter (fun u => u.id != 1) ∧
     (deleteUser ⟨3, "admin"⟩ 1 sampleDB).2.tasks = sampleDB.tasks.filter (fun t => t.user_id != 1)) :=
  ⟨⟨rfl, by decide, ⟨⟨1, "alice", "a@x", bcryptHash "pw", "user"⟩, by decide, rfl⟩⟩,
   (c8_admin_delete_user ⟨3, "admin"⟩ 1 sampleDB rfl).2 (by decide)
     ⟨⟨1, "alice", "a@x", bcryptHash "pw", "user"⟩, by decide, rfl⟩⟩

/-- C9: the Credential Store update filters the supplied fields against
the allow-list username, email, role, so fields outside it never affect
the result; an empty filtered set fails with the NoFieldsToUpdate message;
and a successful update never touches the id or password column of any
row. -/
theorem c9_update_allowlist (id : Nat) (updates : List (String × String)) (db : DB) :
    (User.update id updates db =
      User.update id (updates.filter (fun kv => allowedUserFields.contains kv.1)) db) ∧
    (updates.filter (fun kv => allowedUserFields.contains kv.1) = [] →
      User.update id updates db = .error "No valid fields to update") ∧
    (∀ r db2, User.update id updates db = .ok (r, db2) →
      ∀ u2 ∈ db2.users, ∃ u ∈ db.users, u2.id = u.id ∧ u2.password = u.password) := by
  refine ⟨?_, ?_, ?_⟩
  · have hf : (updates.filter (fun kv => allowedUserFields.contains kv.1)).filter
        (fun kv => allowedUserFields.contains kv.1) =
        updates.filter (fun kv => allowedUserFields.contains kv.1) := by
      rw [List.filter_filter]
      simp
    simp only [User.update, hf]
  · intro h
    simp only [User.update, h]
    rfl
  · intro r db2 hok u2 hu2
    simp only [User.update] at hok
    split at hok
    · simp at hok
    · simp only [Except.ok.injEq, Prod.mk.injEq] at hok
      rw [← hok.2] at hu2
      simp only [List.mem_map] at hu2
      rcases hu2 with ⟨u, hu, hmap⟩
      refine ⟨u, hu, ?_⟩
      rw [← hmap]
      by_cases hc : (u.id == id) = true
      · simp [hc, applyUserFields_id, applyUserFields_password]
      · simp [hc]

/-- Witness for C9: an update supplying only a password field is refused
and an update mixing a junk field with a username change equals the update
with the junk field dropped. -/
theorem c9_witness :
    ([("password", "x")].filter (fun kv => allowedUserFields.contains kv.1) = [] ∧
     User.update 1 [("password", "x")] sampleDB = .error "No valid fields to update") ∧
    User.update 1 [("password", "x"), ("username", "al2")] sampleDB =
      User.update 1 ([("password", "x"), ("username", "al2")].filter
        (fun kv => allowedUserFields.contains kv.1)) sampleDB :=
  ⟨⟨by decide, (c9_update_allowlist 1 [("password", "x")] sampleDB).2.1 (by decide)⟩,
   (c9_update_allowlist 1 [("password", "x"), ("username", "al2")] sampleDB).1⟩

/-- C1 counterexample: in the sample database, task 1 belongs to user 1
and task 99 does not exist; non-admin user 2 reading task 1 gets a 403
with its own message, distinguishable from the 404 of the nonexistent id,
so read denial is not the single merged outcome the claim states. -/
theorem c1_counterexample :
    getTask ⟨2, "user"⟩ 1 sampleDB ≠ getTask ⟨2, "user"⟩ 99 sampleDB ∧
    getTask ⟨2, "user"⟩ 1 sampleDB =
      ⟨403, false, some "Not authorized to access this task", none⟩ ∧
    getTask ⟨2, "user"⟩ 99 sampleDB = ⟨404, false, some "Task not found", none⟩ := by
  decide

/-- C1 amended: for update and delete, a non-admin non-owner receives
exactly the response of a nonexistent id (the merged 404 Task not found or
unauthorized); for read, denial on an existing task is the distinguishable
403 while a nonexistent id answers 404. -/
theorem c1_update_delete_merged_read_distinct (p : Principal) (tid nid : Nat)
    (t : Task) (updates : List (String × String)) (db : DB)
    (hrole : p.role ≠ "admin")
    (ht : Task.findById tid db = some t)
    (hown : t.user_id ≠ p.id)
    (hn : Task.findById nid db = none) :
    updateTask p tid updates db = updateTask p nid updates db ∧
    deleteTask p tid db = deleteTask p nid db ∧
    (getTask p tid db).status = 403 ∧ (getTask p nid db).status = 404 := by
  have hsc : (strContains "Task not found or unauthorized" "not found" ||
      strContains "Task not found or unauthorized" "unauthorized") = true := by decide
  refine ⟨?_, ?_, ?_, ?_⟩
  · simp [updateTask, Task.update, hrole, ht, hown, hn, hsc]
  · simp [deleteTask, Task.delete, hrole, ht, hown, hn, hsc]
  · simp [getTask, ht, hown, hrole]
  · simp [getTask, hn]

/-- Witness for the amended C1 on the sample database. -/
theorem c1_witness :
    ((⟨2, "user"⟩ : Principal).role ≠ "admin" ∧
     Task.findById 1 sampleDB = some ⟨1, "T1", none, "pending", "medium", none, 1, 0⟩ ∧
     (⟨1, "T1", none, "pending", "medium", none, 1, 0⟩ : Task).user_id ≠ 2 ∧
     Task.findById 99 sampleDB = none) ∧
    (updateTask ⟨2, "user"⟩ 1 [("title", "x")] sampleDB =
       updateTask ⟨2, "user"⟩ 99 [("title", "x")] sampleDB ∧
     deleteTask ⟨2, "user"⟩ 1 sampleDB = deleteTask ⟨2, "user"⟩ 99 sampleDB ∧
     (getTask ⟨2, "user"⟩ 1 sampleDB).status = 403 ∧
     (getTask ⟨2, "user"⟩ 99 sampleDB).status = 404) :=
  ⟨⟨by decide, by decide, by decide, by decide⟩,
   c1_update_delete_merged_read_distinct ⟨2, "user"⟩ 1 99
     ⟨1, "T1", none, "pending", "medium", none, 1, 0⟩ [("title", "x")] sampleDB
     (by decide) (by decide) (by decide) (by decide)⟩

/-- C5: for a stored task and an update carrying at least one allow-listed
field, each of read, update and delete succeeds (HTTP 200) exactly when
the principal is an admin or owns the task — the same binary rule for all
three operations. -/
theorem c5_uniform_access_rule (p : Principal) (tid : Nat) (t : Task)
    (updates : List (String × String)) (db : DB)
    (ht : Task.findById tid db = some t)
    (hf : (updates.filter isAllowedTaskField).isEmpty = false) :
    ((getTask p tid db).status = 200 ↔ (p.role = "admin" ∨ t.user_id = p.id)) ∧
    ((updateTask p tid updates db).1.status = 200 ↔ (p.role = "admin" ∨ t.user_id = p.id)) ∧
    ((deleteTask p tid db).1.status = 200 ↔ (p.role = "admin" ∨ t.user_id = p.id)) := by
  have hanyt := tasks_any_of_findById ht
  have hsc : (strContains "Task not found or unauthorized" "not found" ||
      strContains "Task not found or unauthorized" "unauthorized") = true := by decide
  by_cases hadmin : p.role = "admin"
  · refine ⟨?_, ?_, ?_⟩
    · simp [getTask, ht, hadmin]
    · simp [updateTask, Task.update, hadmin, hf]
    · simp [deleteTask, Task.delete, hadmin, hanyt]
  · by_cases hown : t.user_id = p.id
    · refine ⟨?_, ?_, ?_⟩
      · simp [getTask, ht, hadmin, hown]
      · simp [updateTask, Task.update, hadmin, ht, hown, hf]
      · simp [deleteTask, Task.delete, hadmin, ht, hown, hanyt]
    · refine ⟨?_, ?_, ?_⟩
      · simp [getTask, ht, hadmin, hown]
      · simp [updateTask, Task.update, hadmin, ht, hown, hsc]
      · simp [deleteTask, Task.delete, hadmin, ht, hown, hsc]

/-- Witness for C5: the admin reads, updates and deletes the task of user
1 with 200 on the sample database. -/
theorem c5_witness :
    (Task.findById 1 sampleDB = some ⟨1, "T1", none, "pending", "medium", none, 1, 0⟩ ∧
     ([("title", "x")].filter isAllowedTaskField).isEmpty = false) ∧
    ((getTask ⟨3, "admin"⟩ 1 sampleDB).status = 200 ↔
       ((⟨3, "admin"⟩ : Principal).role = "admin" ∨
        (⟨1, "T1", none, "pending", "medium", none, 1, 0⟩ : Task).user_id = 3)) ∧
    ((updateTask ⟨3, "admin"⟩ 1 [("title", "x")] sampleDB).1.status = 200 ↔
       ((⟨3, "admin"⟩ : Principal).role = "admin" ∨
        (⟨1, "T1", none, "pending", "medium", none, 1, 0⟩ : Task).user_id = 3)) ∧
    ((deleteTask ⟨3, "admin"⟩ 1 sampleDB).1.status = 200 ↔
       ((⟨3, "admin"⟩ : Principal).role = "admin" ∨
        (⟨1, "T1", none, "pending", "medium", none, 1, 0⟩ : Task).user_id = 3)) :=
  ⟨⟨by decide, by decide⟩,
   c5_uniform_access_rule ⟨3, "admin"⟩ 1 ⟨1, "T1", none, "pending", "medium", none, 1, 0⟩
     [("title", "x")] sampleDB (by decide) (by decide)⟩

/-- C10: for an admin and a task id with no stored task, Task.update skips
the existence check, runs the UPDATE against zero rows, and returns null,
so the update endpoint answers 200 with a null task; a non-admin caller on
the same id instead receives the merged 404. -/
theorem c10_admin_update_missing_task (p p2 : Principal) (tid : Nat)
    (updates : List (String × String)) (db : DB)
    (hadmin : p.role = "admin") (hp2 : p2.role ≠ "admin")
    (hmiss : Task.findById tid db = none)
    (hf : (updates.filter isAllowedTaskField).isEmpty = false) :
    Task.update tid p.id updates true db = .ok (none, db) ∧
    updateTask p tid updates db =
      (⟨200, true, some "Task updated successfully", some none⟩, db) ∧
    updateTask p2 tid updates db =
      (⟨404, false, some "Task not found or unauthorized", none⟩, db) := by
  have hsc : (strContains "Task not found or unauthorized" "not found" ||
      strContains "Task not found or unauthorized" "unauthorized") = true := by decide
  have hnone := List.find?_eq_none.mp hmiss
  have hmap : db.tasks.map
      (fun t => if t.id == tid then applyTaskFields t (updates.filter isAllowedTaskField) else t) =
      db.tasks := by
    conv_rhs => rw [← List.map_id db.tasks]
    apply List.map_congr_left
    intro a ha
    have hne : (a.id == tid) = false := by simpa using hnone a ha
    simp [hne]
  have hupd : Task.update tid p.id updates true db = .ok (none, db) := by
    have hdb : ({ db with
        tasks := (db.tasks.map
          (fun t => if t.id == tid then applyTaskFields t (updates.filter isAllowedTaskField) else t)) } : DB) = db := by
      rw [hmap]
    simp only [Task.update, if_true, hf, Bool.false_eq_true, if_false, hdb, hmiss]
  refine ⟨hupd, ?_, ?_⟩
  · have hb : (p.role == "admin") = true := by simp [hadmin]
    simp only [updateTask, hb]
    rw [hupd]
  · simp [updateTask, Task.update, hp2, hmiss, hsc]

/-- Witness for C10 at the nonexistent task id 99 of the sample
database. -/
theorem c10_witness :
    ((⟨3, "admin"⟩ : Principal).role = "admin" ∧
     (⟨2, "user"⟩ : Principal).role ≠ "admin" ∧
     Task.findById 99 sampleDB = none ∧
     ([("title", "x")].filter isAllowedTaskField).isEmpty = false) ∧
    (Task.update 99 3 [("title", "x")] true sampleDB = .ok (none, sampleDB) ∧
     updateTask ⟨3, "admin"⟩ 99 [("title", "x")] sampleDB =
       (⟨200, true, some "Task updated successfully", some none⟩, sampleDB) ∧
     updateTask ⟨2, "user"⟩ 99 [("title", "x")] sampleDB =
       (⟨404, false, some "Task not found or unauthorized", none⟩, sampleDB)) :=
  ⟨⟨rfl, by decide, by decide, by decide⟩,
   c10_admin_update_missing_task ⟨3, "admin"⟩ ⟨2, "user"⟩ 99 [("title", "x")] sampleDB
     rfl (by decide) (by decide) (by decide)⟩

/-- C4: the task list of a non-admin is exactly the data-access-layer
query Task.findByUserId on the principal id (so every returned task is
owned by the caller), while an admin list is the Task.findAll query made
with no ownership filter. -/
theorem c4_list_scoping (p : Principal) (q : TaskQuery) (db : DB) :
    (p.role ≠ "admin" →
      (getTasks p q db).tasks =
        Task.findByUserId p.id ⟨q.limit, q.offset, q.status, q.priority, none⟩ db ∧
      ∀ t ∈ (getTasks p q db).tasks, t.user_id = p.id) ∧
    (p.role = "admin" →
      (getTasks p q db).tasks =
        Task.findAll ⟨q.limit, q.offset, q.status, q.priority, none⟩ db) := by
  constructor
  · intro hrole
    have htasks : (getTasks p q db).tasks =
        Task.findByUserId p.id ⟨q.limit, q.offset, q.status, q.priority, none⟩ db := by
      simp [getTasks, hrole]
    refine ⟨htasks, ?_⟩
    intro t hmem
    rw [htasks] at hmem
    simp only [Task.findByUserId] at hmem
    have h1 := List.take_subset _ _ hmem
    have h2 := List.drop_subset _ _ h1
    have h3 := mem_sortByCreatedDesc.mp h2
    have h4 := (List.mem_filter.mp h3).2
    simp only [Bool.and_eq_true, beq_iff_eq] at h4
    exact h4.1.1
  · intro hrole
    simp [getTasks, hrole]

/-- Witness for C4: on the sample database, user 1 sees exactly the
findByUserId result and only their own task, while the admin sees the
unfiltered findAll result. -/
theorem c4_witness :
    ((⟨1, "user"⟩ : Principal).role ≠ "admin" ∧
     (⟨3, "admin"⟩ : Principal).role = "admin") ∧
    ((getTasks ⟨1, "user"⟩ {} sampleDB).tasks =
       Task.findByUserId 1 ⟨10, 0, none, none, none⟩ sampleDB ∧
     (∀ t ∈ (getTasks ⟨1, "user"⟩ {} sampleDB).tasks, t.user_id = 1)) ∧
    (getTasks ⟨3, "admin"⟩ {} sampleDB).tasks =
      Task.findAll ⟨10, 0, none, none, none⟩ sampleDB :=
  ⟨⟨by decide, rfl⟩,
   (c4_list_scoping ⟨1, "user"⟩ {} sampleDB).1 (by decide),
   (c4_list_scoping ⟨3, "admin"⟩ {} sampleDB).2 rfl⟩


end Api
